import Mathlib

/-!
Verification development for the gold-stage entity-extraction and
record-linkage pipeline of the musica-market-intel repository
(src/pipeline/process_gold.py, class GoldProcessor).

The Python code is shallowly embedded: pandas rows become Lean structures,
character offsets are Nat indices into the character list of the page text
(matching Python string indexing), the regex engine is abstracted as an
oracle function where a claim quantifies over its behaviour, and monetary
amounts are represented as unreduced decimal fractions over Nat (the
pipeline only ever compares two-decimal values against integer bounds, so
cross-multiplication comparison coincides with the Python float
comparisons on that domain).
-/

/-- True for the characters Python regex counts as word characters in the
normalized (pure ASCII) context strings: letters, digits, underscore. -/
def isWordChar (c : Char) : Bool :=
  c.isAlphanum || c = '_'

/-- Python str.strip on a character list: drop whitespace from both ends. -/
def stripChars (l : List Char) : List Char :=
  ((l.dropWhile Char.isWhitespace).reverse.dropWhile Char.isWhitespace).reverse

/-- One character of GoldProcessor._normalize_text: NFKD decomposition
followed by ASCII-ignore encoding maps an accented Latin letter to its base
letter and drops any other non-ASCII character.  The table covers the
Latin-1 letters that occur in the repository configuration and data
(Portuguese diacritics); all other non-ASCII characters are dropped, as
the ASCII-ignore encoding does for characters with no ASCII decomposition. -/
def deaccentChar (c : Char) : Option Char :=
  if c.toNat < 128 then some c
  else match c with
  | 'á' | 'à' | 'â' | 'ã' | 'ä' => some 'a'
  | 'Á' | 'À' | 'Â' | 'Ã' | 'Ä' => some 'A'
  | 'é' | 'è' | 'ê' | 'ë' => some 'e'
  | 'É' | 'È' | 'Ê' | 'Ë' => some 'E'
  | 'í' | 'ì' | 'î' | 'ï' => some 'i'
  | 'Í' | 'Ì' | 'Î' | 'Ï' => some 'I'
  | 'ó' | 'ò' | 'ô' | 'õ' | 'ö' => some 'o'
  | 'Ó' | 'Ò' | 'Ô' | 'Õ' | 'Ö' => some 'O'
  | 'ú' | 'ù' | 'û' | 'ü' => some 'u'
  | 'Ú' | 'Ù' | 'Û' | 'Ü' => some 'U'
  | 'ç' => some 'c'
  | 'Ç' => some 'C'
  | 'ñ' => some 'n'
  | 'Ñ' => some 'N'
  | 'ª' => some 'a'
  | 'º' => some 'o'
  | _ => none

/-- GoldProcessor._normalize_text: NFKD normalize, encode ASCII ignoring
unmapped characters, decode, lowercase. -/
def normalizeText (s : String) : String :=
  String.mk ((s.toList.filterMap deaccentChar).map Char.toLower)

/-- Whether the literal keyword kw occurs in t starting at index i with a
regex word boundary on each side, as the pattern built by
GoldProcessor._has_keyword_simple requires for the configured keywords
(all of which begin and end with word characters). -/
def occursAsWordAt (t kw : List Char) (i : Nat) : Bool :=
  decide ((t.drop i).take kw.length = kw) &&
  (match t.get? (i - 1) with
   | some c => i = 0 || !isWordChar c
   | none => true) &&
  (match t.get? (i + kw.length) with
   | some c => !isWordChar c
   | none => true)

/-- Whether kw occurs anywhere in t delimited by word boundaries. -/
def hasWordOccurrence (t kw : List Char) : Bool :=
  (List.range (t.length + 1)).any (occursAsWordAt t kw)

/-- GoldProcessor._has_keyword_simple: true when some keyword of the list
occurs in the text surrounded by word boundaries. -/
def hasKeywordSimple (text : String) (kws : List String) : Bool :=
  kws.any (fun kw => hasWordOccurrence text.toList kw.toList)

/-- SALARY_CONFIG positive keyword list. -/
def positiveKeywords : List String :=
  ["remuneracao", "salario", "mensal", "cache", "bolsa", "vencimento",
   "subsidio", "honorario", "premio", "pagamento"]

/-- SALARY_CONFIG negative keyword list. -/
def negativeKeywords : List String :=
  ["multa", "taxa", "inscricao", "boleto", "gru", "darf",
   "custo", "diaria", "ajuda de custo", "verba", "recurso"]

/-- A monetary amount as the unreduced decimal fraction num / den produced
by parsing an integer part and a decimal part of den = 10 ^ digits; the
pipeline never reduces it and only compares it against integer bounds. -/
structure Amount where
  num : Nat
  den : Nat
deriving DecidableEq

/-- Less-or-equal on amounts by cross multiplication; on the pipeline's
domain of two-decimal values against integer bounds this coincides with
the Python float comparison. -/
def Amount.le (a b : Amount) : Bool :=
  decide (a.num * b.den ≤ b.num * a.den)

/-- Value of a list of decimal digit characters (most significant first). -/
def digitsToNat (l : List Char) : Nat :=
  l.foldl (fun acc c => acc * 10 + (c.toNat - 48)) 0

/-- Parsing float(f-string of integer part, a dot, and decimal part) as the
code does after removing grouping dots; succeeds exactly when both parts
are digit runs that are not both empty, which matches Python float parsing
on every string the salary regex can produce. -/
def parseAmount (ic dc : List Char) : Option Amount :=
  if (ic.all Char.isDigit && dc.all Char.isDigit) && !(ic.isEmpty && dc.isEmpty) then
    some ⟨digitsToNat ic * 10 ^ dc.length + digitsToNat dc, 10 ^ dc.length⟩
  else none

/-- One match of the compiled SALARY_CONFIG regex: span over the page text
in character offsets, whether the optional currency-marker group matched,
the integer-part group, the optional two-digit decimal group and the whole
matched text. -/
structure SalMatch where
  mStart : Nat
  mStop : Nat
  symbol : Bool
  intRaw : String
  decRaw : Option String
  raw : String
deriving DecidableEq

/-- The symmetric context window around a match span, clipped to the text:
characters from max 0 (start - pad) to min (length) (stop + pad). -/
def contextWindow (cs : List Char) (s e pad : Nat) : List Char :=
  (cs.drop (s - pad)).take (min cs.length (e + pad) - (s - pad))

/-- The evidence string the extractors store: the context window with
newlines collapsed to spaces and surrounding whitespace stripped. -/
def evidenceText (cs : List Char) (s e pad : Nat) : String :=
  String.mk (stripChars ((contextWindow cs s e pad).map
    (fun c => if c = '\n' then ' ' else c)))

/-- The normalized 120-character context of a salary match, as
extract_salaries computes it from the original page text. -/
def salaryContextNorm (text : String) (m : SalMatch) : String :=
  normalizeText (String.mk (contextWindow text.toList m.mStart m.mStop 120))

/-- Whether a positive keyword occurs in the normalized context. -/
def salaryHasPositive (text : String) (m : SalMatch) : Bool :=
  hasKeywordSimple (salaryContextNorm text m) positiveKeywords

/-- Whether a negative keyword occurs in the normalized context. -/
def salaryHasNegative (text : String) (m : SalMatch) : Bool :=
  hasKeywordSimple (salaryContextNorm text m) negativeKeywords

/-- SALARY_CONFIG lower bound. -/
def minVal : Amount := ⟨700, 1⟩

/-- SALARY_CONFIG upper bound. -/
def maxVal : Amount := ⟨45000, 1⟩

/-- A salary candidate before page and document fields are attached. -/
structure SalaryHit where
  canonical_value : Amount
  raw_value : String
  evidence_text : String
  match_start_idx : Nat
  score : Int
deriving DecidableEq

/-- The acceptance and scoring pipeline GoldProcessor.extract_salaries
applies to one regex match of one page text, in source order: empty
integer part, context extraction, the no-currency-marker guard, parsing,
the range filter, the calendar-year guard, scoring, the final
currency-or-positive gate and the negative-score rejection. -/
def processSalaryMatch (text : String) (m : SalMatch) : Option SalaryHit :=
  if m.intRaw.isEmpty then none else
  let cs := text.toList
  let evidence := evidenceText cs m.mStart m.mStop 120
  let hasPositive := salaryHasPositive text m
  let hasNegative := salaryHasNegative text m
  let hasFormat := m.intRaw.toList.contains '.' || m.decRaw.isSome
  if !m.symbol && (!hasFormat && !hasPositive) then none else
  match parseAmount (m.intRaw.toList.filter (fun c => c ≠ '.'))
      (m.decRaw.getD "00").toList with
  | none => none
  | some v =>
    if !(Amount.le minVal v && Amount.le v maxVal) then none else
    let isYearRange := Amount.le ⟨1900, 1⟩ v && Amount.le v ⟨2100, 1⟩
    let isRawNumber := !(m.intRaw.toList.contains '.') && m.decRaw.isNone
    if isYearRange && isRawNumber && !m.symbol && !hasPositive then none else
    let score : Int := (if m.symbol then 2 else 0) +
      (if hasPositive then 3 else 0) + (if hasNegative then -10 else 0)
    if !m.symbol && !hasPositive then none else
    if score < 0 then none else
    some { canonical_value := v, raw_value := m.raw, evidence_text := evidence,
           match_start_idx := m.mStart, score := score }

/-- The scoring rule as the specification states it: +2 for a currency
marker, +3 for a positive keyword in the normalized context, -10 for a
negative keyword there. -/
def specScore (text : String) (m : SalMatch) : Int :=
  (if m.symbol then 2 else 0) + (if salaryHasPositive text m then 3 else 0) +
  (if salaryHasNegative text m then -10 else 0)

/-- A row of the silver page table after the page_num coercion of
pd.to_numeric with coercion of failures: none models a missing or
non-numeric page number (NaN). -/
structure PageRow where
  doc_id : String
  source_name : String
  page_num : Option Int
  full_text : String
deriving DecidableEq

/-- A row of the salary staging table built by extract_salaries. -/
structure SalaryRow where
  doc_id : String
  source_name : String
  page_num : Int
  entity_type : String
  canonical_value : Amount
  raw_value : String
  evidence_text : String
  match_start_idx : Nat
  score : Int
deriving DecidableEq

/-- Concatenation of the lists produced for each element, in order; the
accumulation of extracted_rows across loop iterations. -/
def concatMapL (f : α → List β) : List α → List β
  | [] => []
  | x :: xs => f x ++ concatMapL f xs

/-- GoldProcessor.extract_salaries over the page table: rows whose
page_num failed numeric coercion are skipped, every regex match of the
page text (given by the finditer oracle) runs through the acceptance
pipeline, and accepted hits become salary rows.  The subsequent sort of
the staging frame by score only permutes rows and is modelled where its
order matters, in the Matchmaker input. -/
def extractSalaries (finditer : String → List SalMatch)
    (rows : List PageRow) : List SalaryRow :=
  concatMapL (fun row =>
    match row.page_num with
    | none => []
    | some pn =>
      (finditer row.full_text).filterMap (fun m =>
        (processSalaryMatch row.full_text m).map (fun h =>
          { doc_id := row.doc_id, source_name := row.source_name,
            page_num := pn, entity_type := "SALARIO",
            canonical_value := h.canonical_value, raw_value := h.raw_value,
            evidence_text := h.evidence_text,
            match_start_idx := h.match_start_idx, score := h.score }))) rows

/-- One match returned by the regex engine for an instrument pattern:
span in character offsets and the matched text (match.group()). -/
structure ReMatch where
  mStart : Nat
  mStop : Nat
  matched : String
deriving DecidableEq

/-- A row of the instrument candidate table built by extract_instruments
before deduplication. -/
structure InstrumentRow where
  doc_id : String
  source_name : String
  page_num : Int
  entity_type : String
  canonical_value : String
  raw_value : String
  evidence_text : String
  match_start_idx : Nat
  confidence : String
deriving DecidableEq

/-- Python substring containment (sub in s) on character lists. -/
def containsSubstr (s sub : List Char) : Bool :=
  (List.range (s.length + 1)).any (fun i => decide ((s.drop i).take sub.length = sub))

/-- The basic_markers list of extract_instruments: a backslash-s sequence
and the regex metacharacters whose presence marks a pattern as complex. -/
def basicMarkers : List (List Char) :=
  [['\\', 's'], ['['], ['('], ['|'], ['*'], ['+'], ['?'], ['\x7b']]

/-- The is_complex structural inspection of extract_instruments: a pattern
containing a backslash, a backslash-b word boundary, a group opener or any
basic marker is used verbatim; otherwise it is a bare keyword. -/
def isComplexPattern (p : String) : Bool :=
  let cs := p.toList
  cs.contains '\\' || containsSubstr cs ['\\', 'b'] ||
  containsSubstr cs ['(', '?'] || basicMarkers.any (containsSubstr cs)

/-- The pattern actually compiled for an instrument taxonomy entry: bare
keywords are wrapped in word boundaries, complex patterns used verbatim. -/
def regexOf (p : String) : String :=
  if isComplexPattern p then p else "\\b" ++ p ++ "\\b"

/-- INSTRUMENT_TAXONOMY, in source order. -/
def instrumentTaxonomy : List (String × List String) :=
  [("Fagote", ["fagote", "fagotista"]),
   ("Flauta", ["flauta", "flautista", "flautim", "piccolo"]),
   ("Oboé", ["obo[eé]", "obo[ií]sta", "corne\\s+ingl[eê]s"]),
   ("Clarinete", ["clarinete", "clarinetista", "clarineta", "clarone"]),
   ("Trompa", ["trompa", "trompista"]),
   ("Trompete", ["trompete", "trompetista"]),
   ("Trombone", ["trombone", "trombonista"]),
   ("Tuba", ["tuba", "tubista", "euphonium", "bombardino"]),
   ("Violino", ["violino", "violinista", "spalla", "concertino"]),
   ("Viola", ["\\bviola(?!\\w)", "violista"]),
   ("Violoncelo", ["violoncelo", "violoncelista", "cello"]),
   ("Contrabaixo", ["contrabaixo", "contrabaixista", "baixo\\s+ac[uú]stico"]),
   ("Piano", ["piano", "pianista", "correpetidor"]),
   ("Percussão", ["percuss[aã]o", "percussionista", "t[ií]mpanos"]),
   ("Harpa", ["harpa", "harpista"]),
   ("Canto", ["cantor(?:a)?", "corista", "solista\\s+vocal", "artista\\s+do\\s+coro"])]

/-- GoldProcessor.extract_instruments over the page table, the regex
engine abstracted as an oracle from compiled pattern and page text to
either a match list or none; none models the re.error path, which the
code swallows with a bare pass so that only the failing pattern is
skipped.  Rows whose page_num failed numeric coercion are skipped; every
match yields a row with an 80-character evidence window and HIGH
confidence.  Deduplication happens afterwards on the resulting frame. -/
def extractInstruments (oracle : String → String → Option (List ReMatch))
    (taxonomy : List (String × List String)) (rows : List PageRow) :
    List InstrumentRow :=
  concatMapL (fun row =>
    match row.page_num with
    | none => []
    | some pn =>
      concatMapL (fun cp =>
        concatMapL (fun p =>
          match oracle (regexOf p) row.full_text with
          | none => []
          | some ms => ms.map (fun m =>
              { doc_id := row.doc_id, source_name := row.source_name,
                page_num := pn, entity_type := "INSTRUMENTO",
                canonical_value := cp.1, raw_value := m.matched,
                evidence_text := evidenceText row.full_text.toList m.mStart m.mStop 80,
                match_start_idx := m.mStart, confidence := "HIGH" })) cp.2)
        taxonomy) rows

/-- A salary row as the Matchmaker reads it back from the staging frame,
with the fields it defensively checks for NaN made optional. -/
structure MSalary where
  doc_id : Option String
  source_name : String
  page_num : Option Int
  canonical_value : Amount
  evidence_text : String
  match_start_idx : Option Int
  score : Int
deriving DecidableEq

/-- An instrument candidate row as the Matchmaker reads it, with the
fields it checks for NaN made optional (doc_id is read with str() and
never checked). -/
structure MInstrument where
  doc_id : String
  source_name : String
  page_num : Option Int
  canonical_value : String
  evidence_text : String
  match_start_idx : Option Int
deriving DecidableEq

/-- A final opportunity record, one per surviving instrument candidate. -/
structure Opportunity where
  doc_id : String
  source_name : String
  page_num : Int
  instrumento : String
  contexto_instrumento : String
  tipo_vinculo : String
  salario_valor : Option Amount
  salario_score : Int
  distancia_chars : Int
  contexto_salario : Option String
  match_type : String
  salario_formatado : String
deriving DecidableEq

/-- The key under which the Matchmaker files a salary row: present only
when its doc_id is not NaN and its page_num coerces to a number, exactly
the two skip conditions of the salaries_map loop. -/
def salKey (s : MSalary) : Option (String × Int) :=
  match s.doc_id, s.page_num with
  | some d, some p => some (d, p)
  | _, _ => none

/-- The salaries the map lookup salaries_map.get((doc_id, page_num), [])
returns: dictionary insertion order is input order, so the bucket equals
the subsequence of salary rows filed under the key. -/
def possibleSalaries (sals : List MSalary) (k : String × Int) : List MSalary :=
  sals.filter (fun s => decide (salKey s = some k))

/-- The qualifying candidates the Matchmaker collects for one instrument:
same-key salary rows with a non-NaN match offset whose absolute character
distance from the instrument offset is strictly below 3000, paired with
that distance. -/
def validCandidates (sals : List MSalary) (k : String × Int) (pos : Int) :
    List (MSalary × Nat) :=
  (possibleSalaries sals k).filterMap (fun s =>
    match s.match_start_idx with
    | none => none
    | some si =>
      let d := (pos - si).natAbs
      if d < 3000 then some (s, d) else none)

/-- The sort key of the Matchmaker selection: negated score then distance. -/
def candKey (x : MSalary × Nat) : Int × Nat :=
  (-x.1.score, x.2)

/-- Strict lexicographic order on the sort key. -/
def keyLtb (a b : Int × Nat) : Bool :=
  decide (a.1 < b.1) || (decide (a.1 = b.1) && decide (a.2 < b.2))

/-- The head of the stable sort of the candidate list under candKey, as
valid_candidates.sort followed by taking element zero computes it: the
earliest element attaining the minimal key, since Python list.sort is
stable. -/
def selectBest : List (MSalary × Nat) → Option (MSalary × Nat)
  | [] => none
  | x :: xs =>
    match selectBest xs with
    | none => some x
    | some y => if keyLtb (candKey y) (candKey x) then some y else some x

/-- BOND_KEYWORDS, in source dictionary order. -/
def bondKeywords : List (String × List String) :=
  [("CLT", ["clt", "carteira assinada", "regime celetista"]),
   ("Estatutário", ["estatut[áa]rio", "cargo p[úu]blico", "concurso p[úu]blico", "efetivo"]),
   ("Temporário", ["tempor[áa]rio", "processo seletivo", "pss", "determinado"]),
   ("Bolsa", ["bolsa", "bolsista", "est[áa]gio", "ajuda de custo"])]

/-- First bond category whose pattern list has a regex hit in the combined
context; the regex engine is an oracle from pattern and text to a truth
value (re.search producing a match or not). -/
def detectBondAux (hit : String → Bool) : List (String × List String) → String
  | [] => "Não Informado"
  | (b, pats) :: rest => if pats.any hit then b else detectBondAux hit rest

/-- The bond classification loop of match_opportunities. -/
def detectBond (search : String → String → Bool) (ctx : String) : String :=
  detectBondAux (fun p => search p ctx) bondKeywords

/-- Digits of n, most significant first, by structural fuel recursion. -/
def natDigitsF : Nat → Nat → List Char
  | 0, _ => []
  | fuel + 1, n =>
    if n < 10 then [Nat.digitChar n]
    else natDigitsF fuel (n / 10) ++ [Nat.digitChar (n % 10)]

/-- Decimal digit characters of a natural number. -/
def natDigitsL (n : Nat) : List Char :=
  natDigitsF (n + 1) n

/-- Thousands grouping over a reversed digit list, inserting a dot after
every third digit. -/
def groupRevAux : List Char → Nat → List Char
  | [], _ => []
  | c :: cs, k =>
    if k = 3 then '.' :: c :: groupRevAux cs 1
    else c :: groupRevAux cs (k + 1)

/-- Digit list with Brazilian thousands grouping (dots every three). -/
def groupThousands (ds : List Char) : List Char :=
  (groupRevAux ds.reverse 0).reverse

/-- The formatar_real helper of match_opportunities: a missing amount
renders as the placeholder, a present amount as an R-dollar string with
dot thousands grouping and a two-digit comma decimal part.  Rounding to
cents is exact for every amount the pipeline produces (all are two-decimal
values already). -/
def formatarReal : Option Amount → String
  | none => "Não Informado"
  | some v =>
    let cents := (v.num * 200 + v.den) / (v.den * 2)
    let intPart := cents / 100
    let frac := cents % 100
    "R$ " ++ String.mk (groupThousands (natDigitsL intPart)) ++ "," ++
      String.mk [Nat.digitChar (frac / 10), Nat.digitChar (frac % 10)]

/-- The opportunity row match_opportunities builds for one instrument
candidate whose offset and page number are present, including the
salario_formatado column applied to the frame afterwards. -/
def buildOpportunity (search : String → String → Bool) (sals : List MSalary)
    (inst : MInstrument) (pos : Int) (pn : Int) : Opportunity :=
  let vc := validCandidates sals (inst.doc_id, pn) pos
  match selectBest vc with
  | some (s, d) =>
    { doc_id := inst.doc_id, source_name := inst.source_name, page_num := pn,
      instrumento := inst.canonical_value,
      contexto_instrumento := inst.evidence_text,
      tipo_vinculo := detectBond search
        (normalizeText (inst.evidence_text ++ " " ++ s.evidence_text)),
      salario_valor := some s.canonical_value, salario_score := s.score,
      distancia_chars := (d : Int), contexto_salario := some s.evidence_text,
      match_type := "PAGE_PROXIMITY",
      salario_formatado := formatarReal (some s.canonical_value) }
  | none =>
    { doc_id := inst.doc_id, source_name := inst.source_name, page_num := pn,
      instrumento := inst.canonical_value,
      contexto_instrumento := inst.evidence_text,
      tipo_vinculo := detectBond search
        (normalizeText (inst.evidence_text ++ " " ++ "")),
      salario_valor := none, salario_score := 0, distancia_chars := -1,
      contexto_salario := none, match_type := "NO_MATCH",
      salario_formatado := formatarReal none }

/-- The per-instrument body of the Matchmaker loop: instruments with a NaN
match offset or an uncoercible page number are skipped. -/
def matchOneInstrument (search : String → String → Bool) (sals : List MSalary)
    (inst : MInstrument) : Option Opportunity :=
  match inst.match_start_idx, inst.page_num with
  | some pos, some pn => some (buildOpportunity search sals inst pos pn)
  | _, _ => none

/-- GoldProcessor.match_opportunities as a function of its two inputs, one
opportunity row per surviving instrument candidate. -/
def matchOpportunities (search : String → String → Bool)
    (insts : List MInstrument) (sals : List MSalary) : List Opportunity :=
  insts.filterMap (matchOneInstrument search sals)

/-- A regex-search oracle that never matches; used to instantiate the bond
classification in concrete runs where the bond is irrelevant. -/
def noBondSearch : String → String → Bool := fun _ _ => false

lemma concatMapL_append (f : α → List β) (l1 l2 : List α) :
    concatMapL f (l1 ++ l2) = concatMapL f l1 ++ concatMapL f l2 := by
  induction l1 with
  | nil => simp [concatMapL]
  | cons x xs ih => simp [concatMapL, ih]

lemma concatMapL_congr {f g : α → List β} {l : List α}
    (h : ∀ a ∈ l, f a = g a) : concatMapL f l = concatMapL g l := by
  induction l with
  | nil => rfl
  | cons x xs ih =>
    simp only [concatMapL]
    rw [h x (List.mem_cons_self x xs), ih (fun a ha => h a (List.mem_cons_of_mem x ha))]

lemma selectBest_mem {l : List (MSalary × Nat)} {x : MSalary × Nat}
    (h : selectBest l = some x) : x ∈ l := by
  induction l with
  | nil => simp [selectBest] at h
  | cons y ys ih =>
    rw [selectBest] at h
    split at h
    · simp at h
      simp [h]
    · rename_i z hz
      split at h
      · simp at h
        exact List.mem_cons_of_mem y (ih (by rw [hz, h]))
      · simp at h
        simp [h]

lemma salKey_inv {s : MSalary} {k : String × Int} (h : salKey s = some k) :
    s.doc_id = some k.1 ∧ s.page_num = some k.2 := by
  unfold salKey at h
  cases hd : s.doc_id with
  | none => rw [hd] at h; simp at h
  | some d =>
    cases hp : s.page_num with
    | none => rw [hd, hp] at h; simp at h
    | some p =>
      rw [hd, hp] at h
      simp at h
      simp [← h]

lemma mem_validCandidates {sals : List MSalary} {k : String × Int} {pos : Int}
    {s : MSalary} {d : Nat} :
    (s, d) ∈ validCandidates sals k pos ↔
      s ∈ sals ∧ salKey s = some k ∧
      ∃ si, s.match_start_idx = some si ∧
        d = (pos - si).natAbs ∧ d < 3000 := by
  unfold validCandidates possibleSalaries
  rw [List.mem_filterMap]
  constructor
  · rintro ⟨t, ht, hmap⟩
    rcases List.mem_filter.mp ht with ⟨hmem, hkey⟩
    cases hsi : t.match_start_idx with
    | none => rw [hsi] at hmap; simp at hmap
    | some si =>
      rw [hsi] at hmap
      simp only at hmap
      by_cases hd : (pos - si).natAbs < 3000
      · rw [if_pos hd] at hmap
        simp at hmap
        obtain ⟨rfl, rfl⟩ := hmap
        exact ⟨hmem, by simpa using hkey, si, hsi, rfl, hd⟩
      · rw [if_neg hd] at hmap; cases hmap
  · rintro ⟨hmem, hkey, si, hsi, hd, hlt⟩
    refine ⟨s, List.mem_filter.mpr ⟨hmem, by simpa using hkey⟩, ?_⟩
    simp only [hsi]
    subst hd
    rw [if_pos hlt]

/-- Strict lexicographic order on key and input index, the total order the
specification describes for the Matchmaker selection. -/
def lexLtb3 (a b : (Int × Nat) × Nat) : Bool :=
  keyLtb a.1 b.1 || (decide (a.1 = b.1) && decide (a.2 < b.2))

/-- The selection rule as the specification words it: annotate candidates
with their input position and take the minimum under the total order of
highest score, then smallest distance, then earliest input position. -/
def specSelectIdx : Nat → List (MSalary × Nat) → Option ((MSalary × Nat) × Nat)
  | _, [] => none
  | i, x :: xs =>
    match specSelectIdx (i + 1) xs with
    | none => some (x, i)
    | some (y, j) =>
      if lexLtb3 (candKey y, j) (candKey x, i) then some (y, j) else some (x, i)

lemma specSelectIdx_ge {l : List (MSalary × Nat)} :
    ∀ {i : Nat} {y : MSalary × Nat} {j : Nat},
      specSelectIdx i l = some (y, j) → i ≤ j := by
  induction l with
  | nil => intro i y j h; simp [specSelectIdx] at h
  | cons x xs ih =>
    intro i y j h
    rw [specSelectIdx] at h
    split at h
    · simp at h
      omega
    · rename_i y' j' hz
      have hj' : i + 1 ≤ j' := ih hz
      split at h
      · simp at h
        omega
      · simp at h
        omega

lemma selectBest_eq_specSelectIdx (l : List (MSalary × Nat)) :
    ∀ i : Nat, selectBest l = (specSelectIdx i l).map Prod.fst := by
  induction l with
  | nil => intro i; rfl
  | cons x xs ih =>
    intro i
    rw [selectBest, specSelectIdx]
    cases hxs : specSelectIdx (i + 1) xs with
    | none =>
      have hsb : selectBest xs = none := by rw [ih (i + 1), hxs]; rfl
      rw [hsb]
      rfl
    | some z =>
      obtain ⟨y, j⟩ := z
      have hsb : selectBest xs = some y := by rw [ih (i + 1), hxs]; rfl
      rw [hsb]
      have hj : i + 1 ≤ j := specSelectIdx_ge hxs
      have hlex : lexLtb3 (candKey y, j) (candKey x, i) = keyLtb (candKey y) (candKey x) := by
        unfold lexLtb3
        have hji : decide (j < i) = false := by simp; omega
        simp [hji]
      simp only [hlex]
      by_cases hlt : keyLtb (candKey y) (candKey x)
      · simp [hlt]
      · simp [hlt]

/-- Concrete C5 rejection context: negative keywords only, currency marker
present, no positive keyword. -/
def cText5 : String := "taxa de inscrição: R$ 800,00"

/-- The regex match of the monetary token in cText5. -/
def cMatch5 : SalMatch := ⟨19, 28, true, "800", some "00", "R$ 800,00"⟩

/-- Concrete accepted context for the C5 witness. -/
def wText5 : String := "salario de R$ 800,00"

/-- The regex match of the monetary token in wText5. -/
def wMatch5 : SalMatch := ⟨11, 20, true, "800", some "00", "R$ 800,00"⟩

/-- The candidate extract_salaries produces from wText5. -/
def wHit5 : SalaryHit := ⟨⟨80000, 100⟩, "R$ 800,00", "salario de R$ 800,00", 11, 5⟩

/-- Concrete C6 context: a bare year token with no currency marker and no
positive keyword anywhere near. -/
def cText6 : String := "ano de 2025 edital"

/-- The regex match of the bare token 2025 in cText6. -/
def cMatch6 : SalMatch := ⟨7, 11, false, "2025", none, "2025"⟩

/-- Concrete C7 context: a bare token next to a positive keyword phrase. -/
def cText7 : String := "salário mensal de 3500"

/-- The regex match of the bare token 3500 in cText7. -/
def cMatch7 : SalMatch := ⟨18, 22, false, "3500", none, "3500"⟩

/-- The candidate extract_salaries produces from cText7. -/
def cHit7 : SalaryHit := ⟨⟨350000, 100⟩, "3500", "salário mensal de 3500", 18, 3⟩

lemma processSalaryMatch_some_score {text : String} {m : SalMatch} {c : SalaryHit}
    (h : processSalaryMatch text m = some c) :
    c.score = specScore text m ∧ 0 ≤ c.score := by
  simp only [processSalaryMatch] at h
  split at h
  · simp at h
  split at h
  · simp at h
  split at h
  · simp at h
  split at h
  · simp at h
  split at h
  · simp at h
  split at h
  · simp at h
  rw [ite_eq_iff] at h
  rcases h with ⟨_, h⟩ | ⟨hge, h⟩
  · simp at h
  · injection h with h
    subst h
    exact ⟨by simp [specScore], by simpa using Int.not_lt.mp hge⟩

/-- C5: every numeric match that reaches scoring gets score
(+2 currency marker) + (+3 positive keyword) + (-10 negative keyword), any
match with negative score is rejected, and the concrete match with a
currency marker, no positive keyword and a negative keyword nearby scores
2 - 10 = -8 and is rejected. -/
theorem salary_scoring_C5 :
    (∀ (text : String) (m : SalMatch) (c : SalaryHit),
        processSalaryMatch text m = some c →
        c.score = specScore text m ∧ 0 ≤ c.score) ∧
    (∀ (text : String) (m : SalMatch),
        specScore text m < 0 → processSalaryMatch text m = none) ∧
    (specScore cText5 cMatch5 = -8 ∧ processSalaryMatch cText5 cMatch5 = none) := by
  refine ⟨fun text m c h => processSalaryMatch_some_score h, ?_, by decide, by decide⟩
  intro text m h
  by_contra hne
  obtain ⟨c, hc⟩ := Option.ne_none_iff_exists.mp hne
  obtain ⟨h1, h2⟩ := processSalaryMatch_some_score hc.symm
  omega

/-- Witness for C5 at a concrete accepted match: currency marker and
positive keyword give score 5, which matches the formula and is
nonnegative. -/
theorem salary_scoring_C5_witness :
    processSalaryMatch wText5 wMatch5 = some wHit5 ∧
    (wHit5.score = specScore wText5 wMatch5 ∧ 0 ≤ wHit5.score) :=
  ⟨by decide, salary_scoring_C5.1 wText5 wMatch5 wHit5 (by decide)⟩

/-- C6: a match whose parsed amount lies in the calendar-year range with
unformatted raw digits, no currency marker and no positive keyword is
rejected; in particular the bare token 2025 with neutral context is never
accepted. -/
theorem year_guard_C6 :
    (∀ (text : String) (m : SalMatch) (v : Amount),
        m.symbol = false →
        m.intRaw.toList.contains '.' = false →
        m.decRaw = none →
        salaryHasPositive text m = false →
        parseAmount (m.intRaw.toList.filter (fun c => c ≠ '.'))
          ((m.decRaw.getD "00").toList) = some v →
        Amount.le ⟨1900, 1⟩ v = true →
        Amount.le v ⟨2100, 1⟩ = true →
        processSalaryMatch text m = none) ∧
    processSalaryMatch cText6 cMatch6 = none := by
  refine ⟨?_, by decide⟩
  intro text m v hsym hdot hdec hpos hparse h1900 h2100
  simp [processSalaryMatch, hsym, hdot, hdec, hpos]
  intro h1 h2
  split <;> rfl

/-- Witness for C6 at the concrete year token 2025. -/
theorem year_guard_C6_witness :
    (cMatch6.symbol = false ∧ salaryHasPositive cText6 cMatch6 = false) ∧
    processSalaryMatch cText6 cMatch6 = none :=
  ⟨⟨rfl, by decide⟩,
    year_guard_C6.1 cText6 cMatch6 ⟨202500, 100⟩ rfl (by decide) rfl (by decide)
      (by decide) (by decide) (by decide)⟩

/-- C7: a match without a currency marker is accepted only when the raw
digits show grouping or fractional formatting or a positive keyword occurs
in the normalized context; in particular the bare token 3500 near the
phrase about a monthly salary is accepted with parsed amount 3500.00. -/
theorem no_marker_guard_C7 :
    (∀ (text : String) (m : SalMatch) (c : SalaryHit),
        m.symbol = false →
        processSalaryMatch text m = some c →
        (m.intRaw.toList.contains '.' || m.decRaw.isSome) = true ∨
          salaryHasPositive text m = true) ∧
    (processSalaryMatch cText7 cMatch7 = some cHit7 ∧
      cHit7.canonical_value.num = 3500 * cHit7.canonical_value.den) := by
  refine ⟨?_, by decide, by decide⟩
  intro text m c hsym h
  simp only [processSalaryMatch, hsym, Bool.not_false, Bool.true_and] at h
  split at h
  · simp at h
  split at h
  · simp at h
  · rename_i hguard
    cases hpos : salaryHasPositive text m
    · left
      cases hfmt : (m.intRaw.toList.contains '.' || m.decRaw.isSome)
      · exfalso
        apply hguard
        simp at hfmt
        simp [hfmt.1, hfmt.2, hpos]
      · rfl
    · right
      rfl

/-- Witness for C7 at the concrete bare token 3500 near a positive
keyword. -/
theorem no_marker_guard_C7_witness :
    processSalaryMatch cText7 cMatch7 = some cHit7 ∧
    ((cMatch7.intRaw.toList.contains '.' || cMatch7.decRaw.isSome) = true ∨
      salaryHasPositive cText7 cMatch7 = true) :=
  ⟨by decide, no_marker_guard_C7.1 cText7 cMatch7 cHit7 rfl (by decide)⟩

/-- Role candidate for the C1 witness run. -/
def wInst1 : MInstrument := ⟨"dx", "s", some 2, "Fagote", "evr", some 10⟩

/-- Salary candidate on the same page for the C1 witness run. -/
def wSal1 : MSalary := ⟨some "dx", "s", some 2, ⟨850000, 100⟩, "evs", some 50, 5⟩

/-- The opportunity the C1 witness run emits. -/
def wOpp1 : Opportunity :=
  ⟨"dx", "s", 2, "Fagote", "evr", "Não Informado", some ⟨850000, 100⟩, 5, 40,
    some "evs", "PAGE_PROXIMITY", "R$ 8.500,00"⟩

/-- C1: every opportunity the Matchmaker emits satisfies the record
invariant: a PAGE_PROXIMITY row carries a salary value, its distance is at
most the 3000-character window, and the linked salary candidate shares the
role candidate's document and page key; a NO_MATCH row carries no salary
value. -/
theorem matchmaker_invariant_C1 (search : String → String → Bool)
    (insts : List MInstrument) (sals : List MSalary) (opp : Opportunity)
    (h : opp ∈ matchOpportunities search insts sals) :
    (opp.match_type = "PAGE_PROXIMITY" →
      opp.salario_valor.isSome = true ∧ opp.distancia_chars ≤ 3000 ∧
      ∃ s ∈ sals, s.doc_id = some opp.doc_id ∧ s.page_num = some opp.page_num ∧
        opp.salario_valor = some s.canonical_value ∧
        opp.contexto_salario = some s.evidence_text) ∧
    (opp.match_type = "NO_MATCH" → opp.salario_valor = none) := by
  rcases List.mem_filterMap.mp h with ⟨inst, hin, hmo⟩
  rw [matchOneInstrument] at hmo
  split at hmo
  · rename_i pos pn hpos hpn
    injection hmo with hmo
    subst hmo
    cases hsb : selectBest (validCandidates sals (inst.doc_id, pn) pos) with
    | none =>
      constructor
      · intro hmt
        simp only [buildOpportunity, hsb] at hmt
        simp at hmt
      · intro _
        simp [buildOpportunity, hsb]
    | some x =>
      obtain ⟨s, d⟩ := x
      obtain ⟨hmem, hkey, si, hsi, hd, hlt⟩ :=
        mem_validCandidates.mp (selectBest_mem hsb)
      obtain ⟨hdoc, hpage⟩ := salKey_inv hkey
      constructor
      · intro _
        simp only [buildOpportunity, hsb]
        refine ⟨rfl, ?_, s, hmem, ?_, ?_, rfl, rfl⟩
        · omega
        · exact hdoc
        · exact hpage
      · intro hmt
        simp only [buildOpportunity, hsb] at hmt
        simp at hmt
  · cases hmo

/-- Witness for C1 at a concrete PAGE_PROXIMITY run. -/
theorem matchmaker_invariant_C1_witness :
    wOpp1 ∈ matchOpportunities noBondSearch [wInst1] [wSal1] ∧
    ((wOpp1.match_type = "PAGE_PROXIMITY" →
      wOpp1.salario_valor.isSome = true ∧ wOpp1.distancia_chars ≤ 3000 ∧
      ∃ s ∈ [wSal1], s.doc_id = some wOpp1.doc_id ∧ s.page_num = some wOpp1.page_num ∧
        wOpp1.salario_valor = some s.canonical_value ∧
        wOpp1.contexto_salario = some s.evidence_text) ∧
    (wOpp1.match_type = "NO_MATCH" → wOpp1.salario_valor = none)) :=
  ⟨by decide, matchmaker_invariant_C1 noBondSearch [wInst1] [wSal1] wOpp1 (by decide)⟩

/-- Role candidate at offset 0 for the C2 counterexample. -/
def cInst2 : MInstrument := ⟨"d", "s", some 1, "Flauta", "e", some 0⟩

/-- Salary candidate on the same page at character distance exactly 3000. -/
def cSal2 : MSalary := ⟨some "d", "s", some 1, ⟨100000, 100⟩, "es", some 3000, 5⟩

/-- C2 counterexample: a same-page salary candidate at distance exactly
3000 does not qualify; the qualifying list is empty and the run emits
NO_MATCH, against the claim that distance up to and including 3000
qualifies. -/
theorem proximity_window_C2_counterexample :
    salKey cSal2 = some ("d", 1) ∧ cSal2.match_start_idx = some 3000 ∧
    ((0 : Int) - 3000).natAbs = 3000 ∧
    validCandidates [cSal2] ("d", 1) 0 = [] ∧
    (matchOpportunities noBondSearch [cInst2] [cSal2]).map Opportunity.match_type =
      ["NO_MATCH"] := by
  decide

/-- C2 (amended): the qualifying salary candidates for a role candidate
are exactly the same-key candidates whose absolute character distance from
the role offset is strictly below 3000 (so a candidate at exactly 3000
does not qualify). -/
theorem proximity_window_C2 (sals : List MSalary) (k : String × Int) (pos : Int)
    (s : MSalary) (d : Nat) :
    (s, d) ∈ validCandidates sals k pos ↔
      s ∈ sals ∧ salKey s = some k ∧
      ∃ si, s.match_start_idx = some si ∧ d = (pos - si).natAbs ∧ d < 3000 :=
  mem_validCandidates

/-- Witness for C2 at a concrete qualifying candidate at distance 2500. -/
theorem proximity_window_C2_witness :
    (cSal2, 2500) ∈ validCandidates [cSal2] ("d", 1) 500 :=
  (proximity_window_C2 [cSal2] ("d", 1) 500 cSal2 2500).mpr
    ⟨by decide, by decide, 3000, rfl, by decide, by decide⟩

/-- Role candidate at offset 100 for the C3 concrete selection run. -/
def cInst3 : MInstrument := ⟨"d1", "src", some 1, "Violino", "ev-role", some 100⟩

/-- Salary candidate at offset 200 with score 5. -/
def cSalA : MSalary := ⟨some "d1", "src", some 1, ⟨111100, 100⟩, "ev-a", some 200, 5⟩

/-- Salary candidate at offset 2900 with score 8. -/
def cSalB : MSalary := ⟨some "d1", "src", some 1, ⟨222200, 100⟩, "ev-b", some 2900, 8⟩

/-- C3: the Matchmaker selection equals the minimum of the qualifying
candidates under the total order of highest score, then smallest distance,
then earliest input position; and in the concrete run with salary
candidates at offsets 200 (score 5) and 2900 (score 8) the offset-2900
candidate is selected. -/
theorem selection_order_C3 :
    (∀ l : List (MSalary × Nat),
        selectBest l = (specSelectIdx 0 l).map Prod.fst) ∧
    matchOpportunities noBondSearch [cInst3] [cSalA, cSalB] =
      [⟨"d1", "src", 1, "Violino", "ev-role", "Não Informado",
        some ⟨222200, 100⟩, 8, 2800, some "ev-b", "PAGE_PROXIMITY",
        "R$ 2.222,00"⟩] :=
  ⟨fun l => selectBest_eq_specSelectIdx l 0, by decide⟩

/-- Role candidate with no same-page salary for the C9 runs. -/
def wInst9 : MInstrument := ⟨"dz", "s", some 3, "Harpa", "evh", some 5⟩

/-- The sentinel-valued opportunity the C9 witness run emits. -/
def wOpp9 : Opportunity :=
  ⟨"dz", "s", 3, "Harpa", "evh", "Não Informado", none, 0, -1, none,
    "NO_MATCH", "Não Informado"⟩

/-- C9: a role candidate with no qualifying same-page salary candidate
produces a NO_MATCH opportunity carrying sentinel values: null salary
value and evidence, score 0, distance -1, and the placeholder display
string. -/
theorem no_match_sentinels_C9 (search : String → String → Bool)
    (sals : List MSalary) (inst : MInstrument) (pos pn : Int) (opp : Opportunity)
    (hpos : inst.match_start_idx = some pos) (hpn : inst.page_num = some pn)
    (hmo : matchOneInstrument search sals inst = some opp)
    (hnone : validCandidates sals (inst.doc_id, pn) pos = []) :
    opp.match_type = "NO_MATCH" ∧ opp.salario_valor = none ∧
    opp.contexto_salario = none ∧ opp.salario_score = 0 ∧
    opp.distancia_chars = -1 ∧ opp.salario_formatado = "Não Informado" := by
  simp only [matchOneInstrument, hpos, hpn, Option.some.injEq] at hmo
  subst hmo
  simp [buildOpportunity, hnone, selectBest, formatarReal]

/-- Witness for C9 at a concrete run with no salary candidates at all. -/
theorem no_match_sentinels_C9_witness :
    matchOneInstrument noBondSearch [] wInst9 = some wOpp9 ∧
    validCandidates [] (wInst9.doc_id, 3) 5 = [] ∧
    (wOpp9.match_type = "NO_MATCH" ∧ wOpp9.salario_valor = none ∧
      wOpp9.contexto_salario = none ∧ wOpp9.salario_score = 0 ∧
      wOpp9.distancia_chars = -1 ∧ wOpp9.salario_formatado = "Não Informado") :=
  ⟨by decide, by decide,
    no_match_sentinels_C9 noBondSearch [] wInst9 5 3 wOpp9 rfl rfl
      (by decide) (by decide)⟩

/-- C8: when the regex engine fails on one taxonomy pattern (the re.error
path, modelled by the oracle returning none for its compiled form), the
instrument extraction over the whole page table equals the extraction with
that pattern removed from its role's pattern list: every other pattern,
role and page is processed unchanged. -/
theorem pattern_error_isolation_C8 (oracle : String → String → Option (List ReMatch))
    (rows : List PageRow) (pre post : List (String × List String))
    (c : String) (ps1 ps2 : List String) (p : String)
    (hfail : ∀ text, oracle (regexOf p) text = none) :
    extractInstruments oracle (pre ++ (c, ps1 ++ p :: ps2) :: post) rows =
    extractInstruments oracle (pre ++ (c, ps1 ++ ps2) :: post) rows := by
  unfold extractInstruments
  apply concatMapL_congr
  intro row _
  cases hpn : row.page_num with
  | none => rfl
  | some pn =>
    simp [concatMapL_append, concatMapL, hfail row.full_text]

/-- An engine that fails exactly on the compiled pre-anchored viola
pattern and matches elsewhere, for the C8 witness. -/
def wOracle8 : String → String → Option (List ReMatch) :=
  fun pat _ =>
    if pat = regexOf "\\bviola(?!\\w)" then none else some [⟨0, 5, "viola"⟩]

/-- A page row for the C8 witness run. -/
def wRow8 : PageRow := ⟨"doc", "s", some 1, "viola e violista"⟩

/-- Witness for C8: with the failing viola pattern present the extraction
equals the extraction without it. -/
theorem pattern_error_isolation_C8_witness :
    (∀ text, wOracle8 (regexOf "\\bviola(?!\\w)") text = none) ∧
    extractInstruments wOracle8 [("Viola", ["\\bviola(?!\\w)", "violista"])] [wRow8] =
      extractInstruments wOracle8 [("Viola", ["violista"])] [wRow8] :=
  ⟨fun _ => by simp [wOracle8],
    pattern_error_isolation_C8 wOracle8 [wRow8] [] [] "Viola" [] ["violista"]
      "\\bviola(?!\\w)" (fun _ => by simp [wOracle8])⟩

lemma extractInstruments_filter_isSome
    (oracle : String → String → Option (List ReMatch))
    (taxonomy : List (String × List String)) (rows : List PageRow) :
    extractInstruments oracle taxonomy
        (rows.filter (fun r => r.page_num.isSome)) =
      extractInstruments oracle taxonomy rows := by
  induction rows with
  | nil => rfl
  | cons r rs ih =>
    cases hpn : r.page_num with
    | none =>
      have hf : (r :: rs).filter (fun r => r.page_num.isSome) =
          rs.filter (fun r => r.page_num.isSome) := by
        simp [List.filter_cons, hpn]
      rw [hf, ih]
      simp [extractInstruments, concatMapL, hpn]
    | some pn =>
      have hf : (r :: rs).filter (fun r => r.page_num.isSome) =
          r :: rs.filter (fun r => r.page_num.isSome) := by
        simp [List.filter_cons, hpn]
      rw [hf]
      simp only [extractInstruments, concatMapL] at ih ⊢
      rw [ih]

lemma extractSalaries_filter_isSome (finditer : String → List SalMatch)
    (rows : List PageRow) :
    extractSalaries finditer (rows.filter (fun r => r.page_num.isSome)) =
      extractSalaries finditer rows := by
  induction rows with
  | nil => rfl
  | cons r rs ih =>
    cases hpn : r.page_num with
    | none =>
      have hf : (r :: rs).filter (fun r => r.page_num.isSome) =
          rs.filter (fun r => r.page_num.isSome) := by
        simp [List.filter_cons, hpn]
      rw [hf, ih]
      simp [extractSalaries, concatMapL, hpn]
    | some pn =>
      have hf : (r :: rs).filter (fun r => r.page_num.isSome) =
          r :: rs.filter (fun r => r.page_num.isSome) := by
        simp [List.filter_cons, hpn]
      rw [hf]
      simp only [extractSalaries, concatMapL] at ih ⊢
      rw [ih]

/-- C10: rows whose page number is missing or not numeric are silently
skipped by both extractors: extraction over the page table equals
extraction over the table restricted to rows with a valid page number, and
an invalid row on its own contributes no candidates; both extractors are
total functions, so no error is raised. -/
theorem invalid_page_rows_C10 (oracle : String → String → Option (List ReMatch))
    (finditer : String → List SalMatch) (taxonomy : List (String × List String))
    (rows : List PageRow) :
    extractInstruments oracle taxonomy
        (rows.filter (fun r => r.page_num.isSome)) =
      extractInstruments oracle taxonomy rows ∧
    extractSalaries finditer (rows.filter (fun r => r.page_num.isSome)) =
      extractSalaries finditer rows ∧
    ∀ r ∈ rows, r.page_num = none →
      extractInstruments oracle taxonomy [r] = [] ∧
        extractSalaries finditer [r] = [] := by
  refine ⟨extractInstruments_filter_isSome oracle taxonomy rows,
    extractSalaries_filter_isSome finditer rows, ?_⟩
  intro r _ hpn
  constructor
  · simp [extractInstruments, concatMapL, hpn]
  · simp [extractSalaries, concatMapL, hpn]

/-- A page row with an uncoercible page number for the C10 witness. -/
def wRowBad : PageRow := ⟨"db", "s", none, "fagote"⟩

/-- A page row with a valid page number for the C10 witness. -/
def wRowGood : PageRow := ⟨"dg", "s", some 1, "fagote"⟩

/-- A regex engine that always reports one fagote match, for the C10
witness. -/
def wOracle10 : String → String → Option (List ReMatch) :=
  fun _ _ => some [⟨0, 6, "fagote"⟩]

/-- A salary finditer reporting one bare numeric match, for the C10
witness. -/
def wFind10 : String → List SalMatch :=
  fun _ => [⟨0, 4, false, "3500", none, "3500"⟩]

/-- Witness for C10 at a table with one invalid and one valid row. -/
theorem invalid_page_rows_C10_witness :
    (wRowBad ∈ [wRowBad, wRowGood] ∧ wRowBad.page_num = none) ∧
    (extractInstruments wOracle10 instrumentTaxonomy [wRowBad] = [] ∧
      extractSalaries wFind10 [wRowBad] = []) :=
  ⟨⟨by decide, rfl⟩,
    (invalid_page_rows_C10 wOracle10 wFind10 instrumentTaxonomy
      [wRowBad, wRowGood]).2.2 wRowBad (by decide) rfl⟩
